import Mathlib

/-!
Shallow embedding of the heuristic Excel-to-SoW parser `parseExcelToSoW`
(src/shared/schema.ts, lines 545-639) together with proofs about it.

Modelling conventions:
* A JS string is a `List Char`; a cell is either a text cell or an
  empty/absent cell (`CellValue`).  Numeric cells are not exercised by any
  claim and are outside the model.
* JS string truthiness for a text cell is non-emptiness of the list.
* `String.prototype.trim` and the regex class `\s` use the same whitespace
  set (ECMA-262 WhiteSpace plus LineTerminator); it is modelled by
  `isJsWhitespace`.
* The two regex literals of the source are compiled by hand into
  deterministic functions; each definition carries a comment justifying the
  reduction of the backtracking search (greedy quantifiers, ordered
  alternation) to the deterministic code.
* `throw new Error("Empty Excel file")` is modelled with `Except.error`;
  an absent (`undefined`) grid argument is modelled with `none`.
-/

namespace Sow

/-- The whitespace set of the JS regex class `\s` and of
`String.prototype.trim` (ECMA-262 WhiteSpace and LineTerminator). -/
def isJsWhitespace (c : Char) : Bool :=
  c = ' ' || c = '\t' || c = '\n' || c = '\x0b' || c = '\x0c' || c = '\r' ||
  c = '\u00A0' || c = '\u1680' || ('\u2000' ≤ c && c ≤ '\u200A') ||
  c = '\u2028' || c = '\u2029' || c = '\u202F' || c = '\u205F' ||
  c = '\u3000' || c = '\uFEFF'

/-- `String.prototype.toLowerCase`, restricted to the ASCII simple case
mapping (the keywords compared against are all ASCII). -/
def jsToLower (c : Char) : Char :=
  if 'A' ≤ c && c ≤ 'Z' then Char.ofNat (c.toNat + 32) else c

/-- `String.prototype.trim`: drop leading and trailing JS whitespace. -/
def jsTrim (s : List Char) : List Char :=
  ((s.dropWhile isJsWhitespace).reverse.dropWhile isJsWhitespace).reverse

/-- Does `hay` start with `pat`? (both exact, character by character) -/
def startsWithList : List Char → List Char → Bool
  | [], _ => true
  | _ :: _, [] => false
  | p :: ps, c :: cs => p = c && startsWithList ps cs

/-- `String.prototype.includes`: does `hay` contain `pat` as a contiguous
substring? -/
def containsSub (pat : List Char) : List Char → Bool
  | [] => startsWithList pat []
  | c :: t => startsWithList pat (c :: t) || containsSub pat t

/-- `s.toLowerCase().includes(kw)` for an (already lowercase) keyword. -/
def containsKw (s kw : List Char) : Bool :=
  containsSub kw (s.map jsToLower)

/-- The regex class `\d`. -/
def isAsciiDigit (c : Char) : Bool := '0' ≤ c && c ≤ '9'

/-- The regex class `[a-z]` under the `i` flag: for a regex without the `u`
flag, case canonicalisation never lets a non-ASCII character match an ASCII
class, so this is exactly `a`-`z` and `A`-`Z`. -/
def isAsciiLetterCI (c : Char) : Bool :=
  ('a' ≤ c && c ≤ 'z') || ('A' ≤ c && c ≤ 'Z')

/-- Prefix-match test for group 2 of the chapter regex,
`(\d+\.?\s*|[a-z]\.?\s*)`.  In `\d+\.?\s*` only the first digit is
mandatory (`+` needs one repetition, `\.?` and `\s*` match the empty
string), and likewise in `[a-z]\.?\s*` only the letter is mandatory, so a
prefix match exists iff the first character is an ASCII digit or an ASCII
letter. -/
def chapterGrp2Test : List Char → Bool
  | [] => false
  | c :: _ => isAsciiDigit c || isAsciiLetterCI c

/-- Strip a case-insensitive ASCII literal from the front of `s`. -/
def stripLiteralCI : List Char → List Char → Option (List Char)
  | [], s => some s
  | _ :: _, [] => none
  | p :: ps, c :: cs => if jsToLower c = jsToLower p then stripLiteralCI ps cs else none

/-- Match test for the chapter regex `/^(chapter\s*)?(\d+\.?\s*|[a-z]\.?\s*)/i`
(source line 580).  The optional group 1 either matches the empty string
or the literal `chapter` followed by whitespace; after group 1 the next
character must be a digit or a letter (see `chapterGrp2Test`), and since
digits and letters are not whitespace, only the maximal `\s*` run can be
followed by a group 2 match. -/
def chapterRegexTest (s : List Char) : Bool :=
  chapterGrp2Test s ||
    (match stripLiteralCI ("chapter".toList) s with
     | some rest => chapterGrp2Test (rest.dropWhile isJsWhitespace)
     | none => false)

/-- Match test for the subchapter regex `/^\s*(\d+\.\d+|[a-z]\)|•|-)/i`
(source line 602).  The leading `\s*` is greedy and every alternative
starts with a non-whitespace character, so only the maximal whitespace run
can precede the alternation; in `\d+\.\d+` each `\d+` is greedy and
backtracking it would place a digit where `\.` (or the end of a maximal
run) is required, so both digit runs are maximal. -/
def subPatternTest (s : List Char) : Bool :=
  let t := s.dropWhile isJsWhitespace
  (!(t.takeWhile isAsciiDigit).isEmpty &&
    (match t.dropWhile isAsciiDigit with
     | '.' :: r2 => !(r2.takeWhile isAsciiDigit).isEmpty
     | _ => false)) ||
  (match t with
   | c :: ')' :: _ => isAsciiLetterCI c
   | _ => false) ||
  (match t with
   | '•' :: _ => true
   | '-' :: _ => true
   | _ => false)

/-- `cellValue.replace(/^\s*(\d+\.\d+|[a-z]\)|•|-)\s*/i, '')` (source line
605): remove the first (anchored) match if one exists, the original string
otherwise.  The greedy analysis of `subPatternTest` applies; the ordered
alternation is deterministic because the four alternatives start with
disjoint character sets (digit, letter, `•`, `-`), and the trailing `\s*`
is greedy with nothing after it, hence maximal. -/
def subPatternStrip (s : List Char) : List Char :=
  let t := s.dropWhile isJsWhitespace
  if !(t.takeWhile isAsciiDigit).isEmpty then
    match t.dropWhile isAsciiDigit with
    | '.' :: r2 =>
      if (r2.takeWhile isAsciiDigit).isEmpty then s
      else (r2.dropWhile isAsciiDigit).dropWhile isJsWhitespace
    | _ => s
  else if (match t with | c :: ')' :: _ => isAsciiLetterCI c | _ => false) then
    (t.drop 2).dropWhile isJsWhitespace
  else
    match t with
    | '•' :: r => r.dropWhile isJsWhitespace
    | '-' :: r => r.dropWhile isJsWhitespace
    | _ => s

/-- `cellValue.startsWith('  ')` (source line 602): two literal spaces. -/
def startsWithTwoSpaces : List Char → Bool
  | c1 :: c2 :: _ => c1 = ' ' && c2 = ' '
  | _ => false

/-- The chapter-start test, source lines 580-585: the chapter regex or one
of the five keyword substring checks. -/
def isChapterStart (cellValue : List Char) : Bool :=
  chapterRegexTest cellValue ||
  containsKw cellValue "overview".toList ||
  containsKw cellValue "requirement".toList ||
  containsKw cellValue "deliverable".toList ||
  containsKw cellValue "timeline".toList ||
  containsKw cellValue "budget".toList

/-- The subchapter-start test, source line 602. -/
def isSubchapterStart (cellValue : List Char) : Bool :=
  subPatternTest cellValue || startsWithTwoSpaces cellValue

/-- A spreadsheet cell: a JS string, or an empty/absent slot. -/
inductive CellValue where
  | text (s : List Char)
  | empty
  deriving DecidableEq

abbrev Row := List CellValue

abbrev Grid := List Row

/-- `row[i]`: out-of-range access yields `undefined`. -/
def cellAt (row : Row) (i : Nat) : CellValue := row.getD i CellValue.empty

structure Subchapter where
  id : List Char
  title : List Char
  content : List Char
  deriving DecidableEq

structure Chapter where
  id : List Char
  title : List Char
  content : List Char
  subchapters : List Subchapter
  deriving DecidableEq

structure SoWContent where
  chapters : List Chapter
  deriving DecidableEq

structure SoWDoc where
  title : List Char
  description : List Char
  content : SoWContent
  deriving DecidableEq

/-- The accumulator of the body scan, source lines 566-569. -/
structure ScanState where
  chapters : List Chapter
  currentChapter : Option Chapter
  chapterCounter : Nat
  subChapterCounter : Nat
  deriving DecidableEq

/-- `String(n)` for the (integral) counters. -/
def natToText (n : Nat) : List Char := (toString n).toList

/-- `row[1] ? String(row[1]).trim() : ""` (source line 577). -/
def cell1Content (row : Row) : List Char :=
  match cellAt row 1 with
  | .text t => if t.isEmpty then [] else jsTrim t
  | .empty => []

/-- Source lines 587-599: push the open chapter if any and open a fresh
one; the subchapter counter is reset to 1. -/
def startChapter (st : ScanState) (cellValue contentValue : List Char) : ScanState :=
  { chapters := st.chapters ++ st.currentChapter.toList
    currentChapter := some
      { id := natToText st.chapterCounter
        title := cellValue
        content := contentValue
        subchapters := [] }
    chapterCounter := st.chapterCounter + 1
    subChapterCounter := 1 }

/-- Source lines 603-607: append a subchapter to the open chapter. -/
def addSubchapter (st : ScanState) (cur : Chapter) (cellValue contentValue : List Char) : ScanState :=
  { st with
    currentChapter := some
      { cur with subchapters := cur.subchapters ++
          [{ id := cur.id ++ '.' :: natToText st.subChapterCounter
             title := subPatternStrip cellValue
             content := contentValue }] }
    subChapterCounter := st.subChapterCounter + 1 }

/-- Source lines 609-614: append the row to the open chapter's content. -/
def appendContent (cur : Chapter) (cellValue contentValue : List Char) : Chapter :=
  { cur with content :=
      if cur.content.isEmpty then
        cellValue ++ (if contentValue.isEmpty then [] else ':' :: ' ' :: contentValue)
      else
        cur.content ++ '\n' ::
          (cellValue ++ (if contentValue.isEmpty then [] else ':' :: ' ' :: contentValue)) }

/-- One iteration of the body loop, source lines 572-617. -/
def processRow (st : ScanState) (row : Row) : ScanState :=
  match cellAt row 0 with
  | .empty => st
  | .text s =>
    if s.isEmpty then st
    else
      let cellValue := jsTrim s
      let contentValue := cell1Content row
      if isChapterStart cellValue then startChapter st cellValue contentValue
      else
        match st.currentChapter with
        | some cur =>
          if cellValue.isEmpty then st
          else if isSubchapterStart cellValue then
            addSubchapter st cur cellValue contentValue
          else
            { st with currentChapter := some (appendContent cur cellValue contentValue) }
        | none => st

def initState : ScanState :=
  { chapters := [], currentChapter := none, chapterCounter := 1, subChapterCounter := 1 }

/-- The body scan over rows 1..end of the grid, plus the final flush of the
open chapter (source lines 572-622). -/
def bodyScan (data : Grid) : ScanState :=
  (data.drop 1).foldl processRow initState

/-- The chapter list produced by the main scan (before the fallback). -/
def mainChapters (data : Grid) : List Chapter :=
  (bodyScan data).chapters ++ (bodyScan data).currentChapter.toList

/-- One iteration of the metadata loop, source lines 555-564. -/
def metaStep (acc : List Char × List Char) (row : Row) : List Char × List Char :=
  match cellAt row 0 with
  | .empty => acc
  | .text s =>
    if s.isEmpty || (jsTrim s).isEmpty then acc
    else if containsKw s "title".toList || containsKw s "project".toList then
      match cellAt row 1 with
      | .text t => if t.isEmpty then acc else (jsTrim t, acc.2)
      | .empty => acc
    else if containsKw s "description".toList then
      match cellAt row 1 with
      | .text t => if t.isEmpty then acc else (acc.1, jsTrim t)
      | .empty => acc
    else acc

def defaultTitle : List Char := "Imported SoW Document".toList

def defaultDescription : List Char := "Imported from Excel file".toList

/-- The metadata scan over rows `0..min(5, rowCount)-1`. -/
def metaScan (data : Grid) : List Char × List Char :=
  (data.take 5).foldl metaStep (defaultTitle, defaultDescription)

/-- `row.join(' ')`: `undefined` cells become the empty string and cells
are not trimmed. -/
def joinRow (row : Row) : List Char :=
  List.intercalate [' ']
    (row.map (fun c => match c with | .text s => s | .empty => []))

/-- The fallback chapter content, source line 629:
`data.slice(1).map(row => row.join(' ')).join('\n')`. -/
def fallbackContent (data : Grid) : List Char :=
  List.intercalate ['\n'] ((data.drop 1).map joinRow)

/-- The synthetic fallback chapter, source lines 625-632. -/
def fallbackChapter (data : Grid) : Chapter :=
  { id := "1".toList
    title := "Project Overview".toList
    content := fallbackContent data
    subchapters := [] }

/-- The whole parser, source lines 545-639.  `none` models calling it with
`undefined`; the thrown `Error("Empty Excel file")` is an `Except.error`. -/
def parseExcelToSoW (data : Option Grid) : Except String SoWDoc :=
  match data with
  | none => .error "Empty Excel file"
  | some rows =>
    if rows.length = 0 then .error "Empty Excel file"
    else
      let meta := metaScan rows
      let scanned := mainChapters rows
      let chapters := if scanned.length = 0 then [fallbackChapter rows] else scanned
      .ok { title := meta.1, description := meta.2, content := { chapters := chapters } }

/-- A row of the metadata window that overwrites the title (source lines
557-559): cell 0 is a non-blank string containing `title` or `project`,
and cell 1 is truthy. -/
def titleQual (row : Row) : Bool :=
  match cellAt row 0, cellAt row 1 with
  | .text s, .text t =>
    !s.isEmpty && !(jsTrim s).isEmpty &&
      (containsKw s "title".toList || containsKw s "project".toList) && !t.isEmpty
  | _, _ => false

/-- A row of the metadata window that overwrites the description (source
lines 560-561): cell 0 is a non-blank string that does not take the
title/project branch but contains `description`, and cell 1 is truthy. -/
def descQual (row : Row) : Bool :=
  match cellAt row 0, cellAt row 1 with
  | .text s, .text t =>
    !s.isEmpty && !(jsTrim s).isEmpty &&
      !(containsKw s "title".toList || containsKw s "project".toList) &&
      containsKw s "description".toList && !t.isEmpty
  | _, _ => false

/-- The trimmed value of cell 1, used when a metadata row overwrites. -/
def cell1Trim (row : Row) : List Char :=
  match cellAt row 1 with
  | .text t => jsTrim t
  | .empty => []

/-- The chapter ids of `cs` are exactly `"1", "2", …` in array order. -/
def idsFrom1 (cs : List Chapter) : Prop :=
  cs.map Chapter.id = (List.range cs.length).map (fun i => natToText (i + 1))

/-- The subchapter ids of `ch` are exactly `"<id>.1", "<id>.2", …` in
array order. -/
def subIdsOk (ch : Chapter) : Prop :=
  ch.subchapters.map Subchapter.id
    = (List.range ch.subchapters.length).map (fun j => ch.id ++ '.' :: natToText (j + 1))

/-- The chapters accumulated so far, including the open one. -/
def allChaps (st : ScanState) : List Chapter :=
  st.chapters ++ st.currentChapter.toList

/-- The invariant of the body scan that yields the id numbering. -/
def ScanInv (st : ScanState) : Prop :=
  st.chapterCounter = (allChaps st).length + 1 ∧
  idsFrom1 (allChaps st) ∧
  (∀ ch ∈ st.chapters, subIdsOk ch) ∧
  (∀ cur, st.currentChapter = some cur →
     subIdsOk cur ∧ st.subChapterCounter = cur.subchapters.length + 1)

/-- The input grid of claim C2 (spec example scenario 1). -/
def c2grid : Grid :=
  [[CellValue.text "Header".toList, CellValue.text "".toList],
   [CellValue.text "Title".toList, CellValue.text "My Project".toList],
   [CellValue.text "Overview".toList, CellValue.text "Intro text".toList],
   [CellValue.text "1.1 Scope".toList, CellValue.text "In scope items".toList]]

/-- What the parser returns on `c2grid`. -/
def c2doc : SoWDoc :=
  { title := "My Project".toList
    description := defaultDescription
    content := { chapters :=
      [{ id := "1".toList, title := "Title".toList,
         content := "My Project".toList, subchapters := [] },
       { id := "2".toList, title := "Overview".toList,
         content := "Intro text".toList, subchapters := [] },
       { id := "3".toList, title := "1.1 Scope".toList,
         content := "In scope items".toList, subchapters := [] }] } }

/-- The input grid of claim C3 (spec example scenario 5). -/
def c3grid : Grid :=
  [[CellValue.text "H".toList],
   [CellValue.text "1. Plan".toList, CellValue.text "p".toList],
   [CellValue.text "  sub note".toList, CellValue.text "s".toList],
   [CellValue.text "2. Build".toList, CellValue.text "b".toList]]

/-- What the parser returns on `c3grid`. -/
def c3doc : SoWDoc :=
  { title := defaultTitle
    description := defaultDescription
    content := { chapters :=
      [{ id := "1".toList, title := "1. Plan".toList,
         content := "p".toList, subchapters := [] },
       { id := "2".toList, title := "sub note".toList,
         content := "s".toList, subchapters := [] },
       { id := "3".toList, title := "2. Build".toList,
         content := "b".toList, subchapters := [] }] } }

/-- The input grid of claim C4 (spec example scenario 3). -/
def c4grid : Grid :=
  [[CellValue.text "H".toList],
   [CellValue.text "random note".toList, CellValue.text "x".toList]]

/-- What the parser returns on `c4grid`. -/
def c4doc : SoWDoc :=
  { title := defaultTitle
    description := defaultDescription
    content := { chapters :=
      [{ id := "1".toList, title := "random note".toList,
         content := "x".toList, subchapters := [] }] } }

/-- A small grid used as concrete witness input for claim C5. -/
def c5wgrid : Grid := [[CellValue.text "H".toList]]

/-- Concrete witness input for claim C6: two chapters, the first with two
subchapters. -/
def c6wgrid : Grid :=
  [[CellValue.text "H".toList],
   [CellValue.text "1.".toList, CellValue.text "a".toList],
   [CellValue.text "- x".toList, CellValue.text "y".toList],
   [CellValue.text "• y2".toList, CellValue.text "z".toList],
   [CellValue.text "Overview".toList, CellValue.text "z".toList]]

/-- What the parser returns on `c6wgrid`. -/
def c6wdoc : SoWDoc :=
  { title := defaultTitle
    description := defaultDescription
    content := { chapters :=
      [{ id := "1".toList, title := "1.".toList, content := "a".toList,
         subchapters :=
           [{ id := "1.1".toList, title := "x".toList, content := "y".toList },
            { id := "1.2".toList, title := "y2".toList, content := "z".toList }] },
       { id := "2".toList, title := "Overview".toList, content := "z".toList,
         subchapters := [] }] } }

/-- Concrete witness input for claim C7: two title rows and one
description row in the metadata window. -/
def c7wgrid : Grid :=
  [[CellValue.text "Project Name".toList, CellValue.text " Alpha ".toList],
   [CellValue.text "project".toList, CellValue.text "Beta".toList],
   [CellValue.text "description".toList, CellValue.text "Gamma".toList]]

/-- What the parser returns on `c7wgrid`. -/
def c7wdoc : SoWDoc :=
  { title := "Beta".toList
    description := "Gamma".toList
    content := { chapters :=
      [{ id := "1".toList, title := "project".toList,
         content := "Beta".toList, subchapters := [] },
       { id := "2".toList, title := "description".toList,
         content := "Gamma".toList, subchapters := [] }] } }

/-- Concrete witness input for claim C9. -/
def c9wgrid : Grid := [[CellValue.text "Overview".toList]]

/-! ## Helper lemmas -/

theorem exists_append_dropWhile (p : Char → Bool) (l : List Char) :
    ∃ w, l = w ++ l.dropWhile p := by
  induction l with
  | nil => exact ⟨[], rfl⟩
  | cons a t ih =>
    by_cases h : p a
    · obtain ⟨w, hw⟩ := ih
      exact ⟨a :: w, by simp [List.dropWhile_cons, h]; exact hw⟩
    · exact ⟨[], by simp [List.dropWhile_cons, h]⟩

theorem dropWhile_head_false {p : Char → Bool} {l t : List Char} {c : Char}
    (h : l.dropWhile p = c :: t) : p c = false := by
  induction l with
  | nil => simp at h
  | cons a r ih =>
    rw [List.dropWhile_cons] at h
    by_cases ha : p a
    · rw [if_pos ha] at h
      exact ih h
    · rw [if_neg ha] at h
      cases h
      exact Bool.not_eq_true _ ▸ eq_false_of_ne_true ha

/-- The head of a trimmed string is never JS whitespace. -/
theorem jsTrim_head_not_ws {s t : List Char} {c : Char}
    (h : jsTrim s = c :: t) : isJsWhitespace c = false := by
  unfold jsTrim at h
  obtain ⟨w, hw⟩ :=
    exists_append_dropWhile isJsWhitespace (s.dropWhile isJsWhitespace).reverse
  have hu : (s.dropWhile isJsWhitespace).reverse.dropWhile isJsWhitespace
      = t.reverse ++ [c] := by
    have h2 : ((s.dropWhile isJsWhitespace).reverse.dropWhile
        isJsWhitespace).reverse.reverse = (c :: t).reverse := by rw [h]
    simpa using h2
  have hm : s.dropWhile isJsWhitespace = c :: (t ++ w.reverse) := by
    have h3 : (s.dropWhile isJsWhitespace).reverse.reverse
        = (w ++ (t.reverse ++ [c])).reverse := by
      rw [← hu, ← hw]
    simpa using h3
  exact dropWhile_head_false hm

/-- The two-literal-spaces test of source line 602 is applied to the
already trimmed cell value, so it never succeeds. -/
theorem startsWithTwoSpaces_jsTrim (s : List Char) :
    startsWithTwoSpaces (jsTrim s) = false := by
  cases h : jsTrim s with
  | nil => rfl
  | cons c t =>
    have hc : isJsWhitespace c = false := jsTrim_head_not_ws h
    have hc' : ¬ c = ' ' := by
      intro hsp
      rw [hsp] at hc
      simp [isJsWhitespace] at hc
    cases t with
    | nil => rfl
    | cons c2 t2 => simp [startsWithTwoSpaces, hc']

/-! ## C1: error behaviour -/

/-- C1: `parseExcelToSoW` fails with the empty-input error exactly when
the grid is absent or has zero rows, and returns a complete document on
every other input. -/
theorem parseExcelToSoW_error_iff_empty (data : Option Grid) :
    (parseExcelToSoW data = .error "Empty Excel file" ↔ data = none ∨ data = some []) ∧
    ((∃ r, parseExcelToSoW data = .ok r) ↔ ∃ g, data = some g ∧ g ≠ []) := by
  cases data with
  | none => simp [parseExcelToSoW]
  | some g =>
    cases g with
    | nil => simp [parseExcelToSoW]
    | cons r t => simp [parseExcelToSoW]

/-! ## C2: spec example scenario 1 -/

/-- C2 counterexample: on the grid of the claim the parser does not
return a single chapter titled `Overview`; every row of the body starts a
new chapter (its trimmed first cell starts with a letter or a digit), so
three chapters come back and none has a subchapter. -/
theorem parse_c2grid_counterexample :
    (parseExcelToSoW (some c2grid)).toOption.map
        (fun r => (r.title, r.content.chapters))
      = some ("My Project".toList, c2doc.content.chapters) ∧
    c2doc.content.chapters
      ≠ [{ id := "1".toList, title := "Overview".toList,
           content := "Intro text".toList,
           subchapters := [{ id := "1.1".toList, title := "Scope".toList,
                             content := "In scope items".toList }] }] := by
  constructor
  · rfl
  · decide

/-- C2 amended: on the claim's grid the parser returns
`title = "My Project"` and three chapters `"1"`/`Title`, `"2"`/`Overview`,
`"3"`/`1.1 Scope`, each with the row's second cell as content and no
subchapters. -/
theorem parse_c2grid_result : parseExcelToSoW (some c2grid) = .ok c2doc := rfl

/-! ## C3: spec example scenario 5 -/

/-- C3 counterexample: on the claim's grid no chapter has any subchapter;
the two-spaces row `"  sub note"` is trimmed first and then passes the
chapter-start test, so it opens chapter `"2"` instead of becoming
subchapter `"1.1"`. -/
theorem parse_c3grid_counterexample :
    (parseExcelToSoW (some c3grid)).toOption.map
        (fun r => r.content.chapters.map (fun ch => (ch.id, ch.subchapters)))
      = some [("1".toList, []), ("2".toList, []), ("3".toList, [])] ∧
    ([] : List Subchapter)
      ≠ [{ id := "1.1".toList, title := "sub note".toList, content := "s".toList }] := by
  constructor
  · rfl
  · decide

/-- C3 amended: the two-leading-spaces branch of the subchapter test is
evaluated on the trimmed cell value and therefore never succeeds; on the
claim's grid the parser returns three chapters `"1"`, `"2"`, `"3"` titled
`1. Plan`, `sub note`, `2. Build`, each with zero subchapters. -/
theorem parse_c3grid_result :
    (∀ s : List Char, startsWithTwoSpaces (jsTrim s) = false) ∧
    parseExcelToSoW (some c3grid) = .ok c3doc :=
  ⟨startsWithTwoSpaces_jsTrim, rfl⟩

/-! ## C4: spec example scenario 3 -/

/-- C4 counterexample: `random note` is recognized as a chapter start
(leading ASCII letter), so the fallback chapter is not synthesized; the
single chapter is titled `random note`, not `Project Overview`. -/
theorem parse_c4grid_counterexample :
    isChapterStart (jsTrim "random note".toList) = true ∧
    (parseExcelToSoW (some c4grid)).toOption.map
        (fun r => r.content.chapters.map (fun ch => (ch.id, ch.title, ch.content)))
      = some [("1".toList, "random note".toList, "x".toList)] ∧
    "random note".toList ≠ "Project Overview".toList := by
  refine ⟨by decide, rfl, by decide⟩

/-- C4 amended: on the claim's grid the row is recognized as a chapter,
so the parser returns exactly one chapter
`{id:"1", title:"random note", content:"x"}` and the fallback is unused. -/
theorem parse_c4grid_result : parseExcelToSoW (some c4grid) = .ok c4doc := rfl

/-! ## C5: the result always has a chapter -/

/-- C5: for every non-empty grid the parser succeeds and the chapter list
of the result is non-empty: it is the main-scan list when that is
non-empty, and the singleton fallback chapter otherwise. -/
theorem parse_chapters_nonempty (g : Grid) (h : g ≠ []) :
    ∃ r, parseExcelToSoW (some g) = .ok r ∧ r.content.chapters ≠ [] ∧
      ((mainChapters g ≠ [] ∧ r.content.chapters = mainChapters g) ∨
       (mainChapters g = [] ∧ r.content.chapters = [fallbackChapter g])) := by
  have hlen : ¬ g.length = 0 := fun h0 => h (List.length_eq_zero.mp h0)
  refine ⟨{ title := (metaScan g).1, description := (metaScan g).2,
            content := { chapters :=
              if (mainChapters g).length = 0 then [fallbackChapter g]
              else mainChapters g } }, ?_, ?_, ?_⟩
  · simp [parseExcelToSoW, hlen]
  · by_cases hm : (mainChapters g).length = 0
    · simp [hm]
    · simpa [hm] using fun hc => hm (by simp [hc])
  · by_cases hm : (mainChapters g).length = 0
    · exact .inr ⟨List.length_eq_zero.mp hm, by simp [hm]⟩
    · exact .inl ⟨fun hc => hm (by simp [hc]), by simp [hm]⟩

/-- Witness for C5 at a concrete one-row grid. -/
theorem parse_chapters_nonempty_witness :
    ∃ r, parseExcelToSoW (some c5wgrid) = .ok r ∧ r.content.chapters ≠ [] ∧
      ((mainChapters c5wgrid ≠ [] ∧ r.content.chapters = mainChapters c5wgrid) ∨
       (mainChapters c5wgrid = [] ∧ r.content.chapters = [fallbackChapter c5wgrid])) :=
  parse_chapters_nonempty c5wgrid (by decide)

/-! ## C9: determinism -/

/-- C9: the parser is a pure function of the grid; two invocations on
equal grids return equal results (the embedding has no other state). -/
theorem parseExcelToSoW_deterministic (d1 d2 : Option Grid) (h : d1 = d2) :
    parseExcelToSoW d1 = parseExcelToSoW d2 :=
  congrArg parseExcelToSoW h

/-- Witness for C9 at a concrete grid. -/
theorem parseExcelToSoW_deterministic_witness :
    parseExcelToSoW (some c9wgrid) = parseExcelToSoW (some c9wgrid) :=
  parseExcelToSoW_deterministic (some c9wgrid) (some c9wgrid) rfl

/-! ## C8: orphan subchapter rows are dropped -/

set_option linter.unusedVariables false in
/-- C8: while no chapter is open, a row whose trimmed first cell matches
the subchapter-start test (and, per the algorithm's priority, fails the
chapter-start test that is checked first) leaves the scan state unchanged:
it is not added as a subchapter and contributes nothing.  Subchapters can
therefore only ever appear inside an enclosing chapter. -/
theorem processRow_orphan_subchapter_dropped (st : ScanState) (row : Row)
    (s : List Char)
    (hrow : cellAt row 0 = CellValue.text s)
    (hcur : st.currentChapter = none)
    (hsub : isSubchapterStart (jsTrim s) = true)
    (hch : isChapterStart (jsTrim s) = false) :
    processRow st row = st := by
  by_cases hs : s.isEmpty
  · simp [processRow, hrow, hs]
  · simp [processRow, hrow, hs, hch, hcur]

/-- Witness for C8: a bullet row before any chapter is ignored. -/
theorem processRow_orphan_subchapter_dropped_witness :
    processRow initState [CellValue.text "- x".toList] = initState :=
  processRow_orphan_subchapter_dropped initState [CellValue.text "- x".toList]
    "- x".toList (by decide) rfl (by decide) (by decide)

/-! ## C10: the chapter test swallows alphanumeric rows -/

/-- Evaluation of the subchapter regex test on a string whose head is
neither whitespace, a digit, nor a letter: only the bullet alternatives
can match. -/
theorem subPatternTest_head {c : Char} (t : List Char)
    (hws : isJsWhitespace c = false)
    (hd : isAsciiDigit c = false) (hl : isAsciiLetterCI c = false) :
    subPatternTest (c :: t) = (c = '•' || c = '-') := by
  simp only [subPatternTest]
  rw [List.dropWhile_cons, if_neg (by simp [hws])]
  rw [List.takeWhile_cons, if_neg (by simp [hd])]
  simp only [List.isEmpty_nil, Bool.not_true, Bool.false_and, Bool.false_or]
  have hm2 : (match c :: t with
      | c' :: ')' :: _ => isAsciiLetterCI c'
      | _ => false) = false := by
    split
    · next heq =>
        injection heq with hc1 hc2
        subst hc1
        exact hl
    · rfl
  rw [hm2, Bool.false_or]
  split
  · next heq =>
      injection heq with hc1 hc2
      subst hc1
      simp
  · next heq =>
      injection heq with hc1 hc2
      subst hc1
      simp
  · next hne1 hne2 =>
      have h1 : ¬ c = '•' := fun hc => by subst hc; exact hne1 t rfl
      have h2 : ¬ c = '-' := fun hc => by subst hc; exact hne2 t rfl
      simp [h1, h2]

/-- C10: a body row whose trimmed first cell begins with an ASCII letter
or digit always passes the chapter-start test and starts a new chapter
(the dot and whitespace of the chapter regex are optional); consequently
a row reaches the subchapter classification only when a chapter is open,
its trimmed first cell begins with a bullet character, and it contains
none of the five chapter keywords. -/
theorem chapterTest_alnum_subchapter_bullets :
    (∀ (c : Char) (t : List Char), (isAsciiDigit c || isAsciiLetterCI c) = true →
       isChapterStart (c :: t) = true) ∧
    (∀ (st : ScanState) (row : Row) (s : List Char) (c : Char) (t : List Char),
       cellAt row 0 = CellValue.text s → jsTrim s = c :: t →
       (isAsciiDigit c || isAsciiLetterCI c) = true →
       processRow st row = startChapter st (jsTrim s) (cell1Content row)) ∧
    (∀ s : List Char,
       isChapterStart (jsTrim s) = false → isSubchapterStart (jsTrim s) = true →
       ((jsTrim s).head? = some '•' ∨ (jsTrim s).head? = some '-') ∧
       containsKw (jsTrim s) "overview".toList = false ∧
       containsKw (jsTrim s) "requirement".toList = false ∧
       containsKw (jsTrim s) "deliverable".toList = false ∧
       containsKw (jsTrim s) "timeline".toList = false ∧
       containsKw (jsTrim s) "budget".toList = false)
    := by
  have halnum : ∀ (c : Char) (t : List Char),
      (isAsciiDigit c || isAsciiLetterCI c) = true → isChapterStart (c :: t) = true := by
    intro c t h
    simp [isChapterStart, chapterRegexTest, chapterGrp2Test, h]
  refine ⟨halnum, ?_, ?_⟩
  · intro st row s c t hrow htrim hcl
    have hs : s.isEmpty = false := by
      cases s with
      | nil => simp [jsTrim] at htrim
      | cons a r => rfl
    have hch : isChapterStart (jsTrim s) = true := htrim ▸ halnum c t hcl
    simp [processRow, hrow, hs, hch]
  · intro s hch hsub
    have hsp : subPatternTest (jsTrim s) = true := by
      simpa [isSubchapterStart, startsWithTwoSpaces_jsTrim s] using hsub
    simp only [isChapterStart, Bool.or_eq_false_iff] at hch
    obtain ⟨⟨⟨⟨⟨hreg, h1⟩, h2⟩, h3⟩, h4⟩, h5⟩ := hch
    cases hu : jsTrim s with
    | nil => rw [hu] at hsp; simp [subPatternTest] at hsp
    | cons c t =>
      have hws : isJsWhitespace c = false := jsTrim_head_not_ws hu
      have hgrp : chapterGrp2Test (c :: t) = false := by
        rw [hu] at hreg
        simp only [chapterRegexTest, Bool.or_eq_false_iff] at hreg
        exact hreg.1
      simp only [chapterGrp2Test, Bool.or_eq_false_iff] at hgrp
      rw [hu] at hsp
      rw [subPatternTest_head t hws hgrp.1 hgrp.2] at hsp
      refine ⟨?_, hu ▸ h1, hu ▸ h2, hu ▸ h3, hu ▸ h4, hu ▸ h5⟩
      have hc : c = '•' ∨ c = '-' := by simpa using hsp
      rcases hc with h | h
      · exact Or.inl (by simp [h])
      · exact Or.inr (by simp [h])

/-- Witness for C10: a letter row is a chapter start; a dash row that is
no chapter start is classified by its leading bullet character. -/
theorem chapterTest_alnum_subchapter_bullets_witness :
    isChapterStart ('T' :: "itle".toList) = true ∧
    processRow initState [CellValue.text " 1 Foo".toList, CellValue.text "y".toList]
      = startChapter initState (jsTrim " 1 Foo".toList)
          (cell1Content [CellValue.text " 1 Foo".toList, CellValue.text "y".toList]) ∧
    (((jsTrim "- x".toList).head? = some '•' ∨ (jsTrim "- x".toList).head? = some '-') ∧
       containsKw (jsTrim "- x".toList) "overview".toList = false ∧
       containsKw (jsTrim "- x".toList) "requirement".toList = false ∧
       containsKw (jsTrim "- x".toList) "deliverable".toList = false ∧
       containsKw (jsTrim "- x".toList) "timeline".toList = false ∧
       containsKw (jsTrim "- x".toList) "budget".toList = false) :=
  ⟨chapterTest_alnum_subchapter_bullets.1 'T' "itle".toList (by decide),
   chapterTest_alnum_subchapter_bullets.2.1 initState
     [CellValue.text " 1 Foo".toList, CellValue.text "y".toList]
     " 1 Foo".toList '1' (' ' :: "Foo".toList) (by decide) (by decide) (by decide),
   chapterTest_alnum_subchapter_bullets.2.2 "- x".toList (by decide) (by decide)⟩

/-! ## C6: id numbering of the main scan -/

theorem processRow_eq_empty (st : ScanState) (row : Row)
    (h : cellAt row 0 = CellValue.empty) : processRow st row = st := by
  simp [processRow, h]

theorem processRow_eq_blank (st : ScanState) (row : Row) (s : List Char)
    (h : cellAt row 0 = CellValue.text s) (hs : s.isEmpty = true) :
    processRow st row = st := by
  simp [processRow, h, hs]

theorem processRow_eq_chapter (st : ScanState) (row : Row) (s : List Char)
    (h : cellAt row 0 = CellValue.text s) (hs : s.isEmpty = false)
    (hch : isChapterStart (jsTrim s) = true) :
    processRow st row = startChapter st (jsTrim s) (cell1Content row) := by
  simp [processRow, h, hs, hch]

theorem processRow_eq_noChapter (st : ScanState) (row : Row) (s : List Char)
    (h : cellAt row 0 = CellValue.text s) (hs : s.isEmpty = false)
    (hch : isChapterStart (jsTrim s) = false)
    (hcur : st.currentChapter = none) : processRow st row = st := by
  simp [processRow, h, hs, hch, hcur]

theorem processRow_eq_blankTrim (st : ScanState) (row : Row) (s : List Char)
    (cur : Chapter)
    (h : cellAt row 0 = CellValue.text s) (hs : s.isEmpty = false)
    (hch : isChapterStart (jsTrim s) = false)
    (hcur : st.currentChapter = some cur)
    (hcv : (jsTrim s).isEmpty = true) : processRow st row = st := by
  simp [processRow, h, hs, hch, hcur, hcv]

theorem processRow_eq_sub (st : ScanState) (row : Row) (s : List Char)
    (cur : Chapter)
    (h : cellAt row 0 = CellValue.text s) (hs : s.isEmpty = false)
    (hch : isChapterStart (jsTrim s) = false)
    (hcur : st.currentChapter = some cur)
    (hcv : (jsTrim s).isEmpty = false)
    (hsub : isSubchapterStart (jsTrim s) = true) :
    processRow st row = addSubchapter st cur (jsTrim s) (cell1Content row) := by
  simp [processRow, h, hs, hch, hcur, hcv, hsub]

theorem processRow_eq_content (st : ScanState) (row : Row) (s : List Char)
    (cur : Chapter)
    (h : cellAt row 0 = CellValue.text s) (hs : s.isEmpty = false)
    (hch : isChapterStart (jsTrim s) = false)
    (hcur : st.currentChapter = some cur)
    (hcv : (jsTrim s).isEmpty = false)
    (hsub : isSubchapterStart (jsTrim s) = false) :
    processRow st row
      = { st with currentChapter := some (appendContent cur (jsTrim s) (cell1Content row)) } := by
  simp [processRow, h, hs, hch, hcur, hcv, hsub]

theorem idsFrom1_append (cs : List Chapter) (c : Chapter)
    (h : idsFrom1 cs) (hid : c.id = natToText (cs.length + 1)) :
    idsFrom1 (cs ++ [c]) := by
  simp only [idsFrom1] at h ⊢
  rw [List.map_append, List.length_append, h]
  simp [List.range_succ, hid]

theorem subIdsOk_nil (c : Chapter) (h : c.subchapters = []) : subIdsOk c := by
  simp [subIdsOk, h]

theorem subIdsOk_append (cur : Chapter) (sc : Subchapter)
    (h : subIdsOk cur)
    (hid : sc.id = cur.id ++ '.' :: natToText (cur.subchapters.length + 1)) :
    subIdsOk { cur with subchapters := cur.subchapters ++ [sc] } := by
  simp only [subIdsOk] at h ⊢
  rw [List.map_append, List.length_append, h]
  simp [List.range_succ, hid]

theorem allChaps_startChapter (st : ScanState) (cv ctv : List Char) :
    allChaps (startChapter st cv ctv)
      = allChaps st ++ [{ id := natToText st.chapterCounter, title := cv,
                          content := ctv, subchapters := [] }] := by
  simp [allChaps, startChapter]

theorem scanInv_startChapter (st : ScanState) (cv ctv : List Char)
    (h : ScanInv st) : ScanInv (startChapter st cv ctv) := by
  obtain ⟨hcnt, hids, hsubs, hcur⟩ := h
  refine ⟨?_, ?_, ?_, ?_⟩
  · have hlen : (allChaps (startChapter st cv ctv)).length = (allChaps st).length + 1 := by
      rw [allChaps_startChapter]; simp
    rw [hlen]
    show st.chapterCounter + 1 = (allChaps st).length + 1 + 1
    omega
  · rw [allChaps_startChapter]
    refine idsFrom1_append _ _ hids ?_
    show natToText st.chapterCounter = _
    rw [hcnt]
  · intro ch hch
    rcases List.mem_append.mp hch with h1 | h2
    · exact hsubs ch h1
    · cases hcc : st.currentChapter with
      | none => rw [hcc] at h2; simp at h2
      | some cur =>
        rw [hcc] at h2
        simp at h2
        subst h2
        exact (hcur _ hcc).1
  · intro cur2 hc2
    have h2 : _ = cur2 := Option.some.inj hc2
    subst h2
    exact ⟨subIdsOk_nil _ rfl, rfl⟩

theorem scanInv_addSubchapter (st : ScanState) (cur : Chapter) (cv ctv : List Char)
    (hc : st.currentChapter = some cur) (h : ScanInv st) :
    ScanInv (addSubchapter st cur cv ctv) := by
  obtain ⟨hcnt, hids, hsubs, hcurP⟩ := h
  obtain ⟨hsub, hcnt2⟩ := hcurP cur hc
  have hallOld : allChaps st = st.chapters ++ [cur] := by simp [allChaps, hc]
  have hall : allChaps (addSubchapter st cur cv ctv)
      = st.chapters ++
        [{ cur with subchapters := cur.subchapters ++
            [{ id := cur.id ++ '.' :: natToText st.subChapterCounter,
               title := subPatternStrip cv, content := ctv }] }] := by
    simp [allChaps, addSubchapter]
  refine ⟨?_, ?_, hsubs, ?_⟩
  · show st.chapterCounter = _
    rw [hall, List.length_append]
    rw [hallOld, List.length_append] at hcnt
    simpa using hcnt
  · rw [hall]
    rw [hallOld] at hids
    simp only [idsFrom1, List.map_append, List.length_append] at hids ⊢
    simpa using hids
  · intro cur2 hc2
    have h2 : _ = cur2 := Option.some.inj hc2
    subst h2
    constructor
    · exact subIdsOk_append cur _ hsub (by simp [hcnt2])
    · show st.subChapterCounter + 1 = _
      simp [hcnt2]

theorem scanInv_appendContent (st : ScanState) (cur : Chapter) (cv ctv : List Char)
    (hc : st.currentChapter = some cur) (h : ScanInv st) :
    ScanInv { st with currentChapter := some (appendContent cur cv ctv) } := by
  obtain ⟨hcnt, hids, hsubs, hcurP⟩ := h
  obtain ⟨hsub, hcnt2⟩ := hcurP cur hc
  have hallOld : allChaps st = st.chapters ++ [cur] := by simp [allChaps, hc]
  have hall : allChaps { st with currentChapter := some (appendContent cur cv ctv) }
      = st.chapters ++ [appendContent cur cv ctv] := by
    simp [allChaps]
  refine ⟨?_, ?_, hsubs, ?_⟩
  · show st.chapterCounter = _
    rw [hall, List.length_append]
    rw [hallOld, List.length_append] at hcnt
    simpa using hcnt
  · rw [hall]
    rw [hallOld] at hids
    simp only [idsFrom1, List.map_append, List.length_append] at hids ⊢
    simpa [appendContent] using hids
  · intro cur2 hc2
    have h2 : _ = cur2 := Option.some.inj hc2
    subst h2
    constructor
    · show cur.subchapters.map Subchapter.id = _
      exact hsub
    · show st.subChapterCounter = _
      exact hcnt2

theorem scanInv_processRow (st : ScanState) (row : Row) (h : ScanInv st) :
    ScanInv (processRow st row) := by
  cases hcell : cellAt row 0 with
  | empty => rw [processRow_eq_empty st row hcell]; exact h
  | text s =>
    by_cases hs : s.isEmpty
    · rw [processRow_eq_blank st row s hcell hs]; exact h
    · have hs' : s.isEmpty = false := by simpa using hs
      by_cases hch : isChapterStart (jsTrim s)
      · rw [processRow_eq_chapter st row s hcell hs' hch]
        exact scanInv_startChapter st _ _ h
      · have hch' : isChapterStart (jsTrim s) = false := by simpa using hch
        cases hcur : st.currentChapter with
        | none => rw [processRow_eq_noChapter st row s hcell hs' hch' hcur]; exact h
        | some cur =>
          by_cases hcv : (jsTrim s).isEmpty
          · rw [processRow_eq_blankTrim st row s cur hcell hs' hch' hcur hcv]; exact h
          · have hcv' : (jsTrim s).isEmpty = false := by simpa using hcv
            by_cases hsub : isSubchapterStart (jsTrim s)
            · rw [processRow_eq_sub st row s cur hcell hs' hch' hcur hcv' hsub]
              exact scanInv_addSubchapter st cur _ _ hcur h
            · have hsub' : isSubchapterStart (jsTrim s) = false := by simpa using hsub
              rw [processRow_eq_content st row s cur hcell hs' hch' hcur hcv' hsub']
              exact scanInv_appendContent st cur _ _ hcur h

theorem scanInv_foldl (rows : List Row) :
    ∀ st, ScanInv st → ScanInv (rows.foldl processRow st) := by
  induction rows with
  | nil => intro st h; simpa using h
  | cons r rs ih =>
    intro st h
    rw [List.foldl_cons]
    exact ih _ (scanInv_processRow st r h)

theorem scanInv_init : ScanInv initState := by
  refine ⟨rfl, ?_, ?_, ?_⟩
  · simp [idsFrom1, allChaps, initState]
  · simp [initState]
  · simp [initState]

theorem mainChapters_ids (g : Grid) :
    idsFrom1 (mainChapters g) ∧ ∀ ch ∈ mainChapters g, subIdsOk ch := by
  obtain ⟨hcnt, hids, hsubs, hcur⟩ := scanInv_foldl (g.drop 1) initState scanInv_init
  refine ⟨hids, ?_⟩
  intro ch hch
  rcases List.mem_append.mp hch with h1 | h2
  · exact hsubs ch h1
  · cases hcc : (bodyScan g).currentChapter with
    | none => rw [hcc] at h2; simp at h2
    | some cur =>
      rw [hcc] at h2
      simp at h2
      subst h2
      exact (hcur _ hcc).1

/-- C6: whenever the result chapters come from the main scan (not the
fallback), the chapter ids in array order are exactly `"1", …, "<N>"` and
within each chapter the subchapter ids are exactly
`"<chapterId>.1", "<chapterId>.2", …`, the counter restarting at 1 with
every new chapter. -/
theorem parse_main_scan_ids (g : Grid) (r : SoWDoc)
    (hr : parseExcelToSoW (some g) = .ok r) (hm : mainChapters g ≠ []) :
    r.content.chapters.map Chapter.id
      = (List.range r.content.chapters.length).map (fun i => natToText (i + 1)) ∧
    ∀ ch ∈ r.content.chapters, ch.subchapters.map Subchapter.id
      = (List.range ch.subchapters.length).map
          (fun j => ch.id ++ '.' :: natToText (j + 1)) := by
  have hch : r.content.chapters = mainChapters g := by
    by_cases hlen : g.length = 0
    · simp [parseExcelToSoW, hlen] at hr
    · have hm0 : ¬ (mainChapters g).length = 0 := fun h0 => hm (List.length_eq_zero.mp h0)
      simp only [parseExcelToSoW, hlen, if_false, hm0, if_neg hm0, ite_false] at hr
      rw [← Except.ok.inj hr]
  obtain ⟨hids, hsubs⟩ := mainChapters_ids g
  rw [hch]
  exact ⟨hids, hsubs⟩

/-- Witness for C6 at a concrete grid with two chapters, the first of
which has two subchapters. -/
theorem parse_main_scan_ids_witness :
    c6wdoc.content.chapters.map Chapter.id
      = (List.range c6wdoc.content.chapters.length).map (fun i => natToText (i + 1)) ∧
    ∀ ch ∈ c6wdoc.content.chapters, ch.subchapters.map Subchapter.id
      = (List.range ch.subchapters.length).map
          (fun j => ch.id ++ '.' :: natToText (j + 1)) :=
  parse_main_scan_ids c6wgrid c6wdoc rfl (by decide)

/-! ## C7: the last matching metadata row wins -/

set_option linter.unnecessarySeqFocus false in
theorem metaStep_eq (acc : List Char × List Char) (row : Row) :
    metaStep acc row
      = (if titleQual row then cell1Trim row else acc.1,
         if descQual row then cell1Trim row else acc.2) := by
  cases h0 : cellAt row 0 with
  | empty => simp [metaStep, titleQual, descQual, h0]
  | text s =>
    cases h1 : cellAt row 1 with
    | empty =>
      simp only [metaStep, titleQual, descQual, cell1Trim, h0, h1]
      by_cases hg1 : s.isEmpty <;> by_cases hg2 : (jsTrim s).isEmpty <;>
        by_cases hk1 : (containsKw s "title".toList || containsKw s "project".toList) = true <;>
        by_cases hk2 : containsKw s "description".toList <;>
        simp_all
    | text t =>
      simp only [metaStep, titleQual, descQual, cell1Trim, h0, h1]
      by_cases hg1 : s.isEmpty <;> by_cases hg2 : (jsTrim s).isEmpty <;>
        by_cases hk1 : (containsKw s "title".toList || containsKw s "project".toList) = true <;>
        by_cases hk2 : containsKw s "description".toList <;>
        by_cases ht : t.isEmpty <;>
        simp_all <;>
        rcases hk1 with h | h <;> simp [h]

theorem getLast?_cons_isSome (a : Row) (l : List Row) :
    ∃ x, (a :: l).getLast? = some x := by
  induction l generalizing a with
  | nil => exact ⟨a, rfl⟩
  | cons b m ih =>
    obtain ⟨x, hx⟩ := ih b
    exact ⟨x, by rw [List.getLast?_cons_cons]; exact hx⟩

theorem getD_lastFilter_cons (q : Row → Bool) (v : Row → List Char)
    (r : Row) (rs : List Row) (d : List Char) :
    ((((r :: rs).filter q).getLast?).map v).getD d
      = if q r then (((rs.filter q).getLast?).map v).getD (v r)
        else (((rs.filter q).getLast?).map v).getD d := by
  by_cases h : q r
  · rw [if_pos h, List.filter_cons_of_pos (by simpa using h)]
    cases hl : rs.filter q with
    | nil => simp
    | cons a l =>
      rw [List.getLast?_cons_cons]
      obtain ⟨x, hx⟩ := getLast?_cons_isSome a l
      rw [hx]
      simp
  · rw [if_neg h, List.filter_cons_of_neg (by simpa using h)]

theorem metaFold_eq (rows : List Row) : ∀ t0 d0 : List Char,
    rows.foldl metaStep (t0, d0)
      = ((((rows.filter titleQual).getLast?).map cell1Trim).getD t0,
         (((rows.filter descQual).getLast?).map cell1Trim).getD d0) := by
  induction rows with
  | nil => intro t0 d0; simp
  | cons r rs ih =>
    intro t0 d0
    rw [List.foldl_cons, metaStep_eq, ih]
    rw [getD_lastFilter_cons titleQual cell1Trim r rs t0,
        getD_lastFilter_cons descQual cell1Trim r rs d0]
    by_cases ht : titleQual r <;> by_cases hd : descQual r <;> simp [ht, hd]

/-- C7: the title is determined by the last row of the 5-row metadata
window whose cell 0 takes the title/project branch with a truthy cell 1,
and the description by the last row taking the description branch (the
title branch is checked first) with a truthy cell 1; each match overwrites
the previous value, defaults apply when no row matches. -/
theorem parse_meta_last_match_wins (g : Grid) (r : SoWDoc)
    (hr : parseExcelToSoW (some g) = .ok r) :
    r.title
      = ((((g.take 5).filter titleQual).getLast?).map cell1Trim).getD defaultTitle ∧
    r.description
      = ((((g.take 5).filter descQual).getLast?).map cell1Trim).getD defaultDescription := by
  by_cases hlen : g.length = 0
  · simp [parseExcelToSoW, hlen] at hr
  · simp only [parseExcelToSoW, if_neg hlen] at hr
    rw [← Except.ok.inj hr]
    constructor
    · show (metaScan g).1 = _
      simp only [metaScan, metaFold_eq]
    · show (metaScan g).2 = _
      simp only [metaScan, metaFold_eq]

/-- Witness for C7 at a grid with two title rows and a description row. -/
theorem parse_meta_last_match_wins_witness :
    c7wdoc.title
      = ((((c7wgrid.take 5).filter titleQual).getLast?).map cell1Trim).getD defaultTitle ∧
    c7wdoc.description
      = ((((c7wgrid.take 5).filter descQual).getLast?).map cell1Trim).getD defaultDescription :=
  parse_meta_last_match_wins c7wgrid c7wdoc rfl

end Sow
